import Mathlib

/-!
Verification of the mount-lifecycle orchestration in `src/lib/management/mfs.rs`
(`init_mfs`, `detach_mfs`, `mount_fs`, `unmount_fs`, `wait_for_port`,
`get_supervisor_pid`).

The Rust code is async and effectful.  We embed it shallowly: every external
effect (filesystem call, subprocess, database query, TCP connect, signal) is an
oracle field of an `Env` record, and each Rust function becomes a Lean function
from `Env` (plus its arguments) to a pair of an event trace and a result.  The
event trace records which external commands were issued and in which order,
which is what the ordering and "command never invoked" claims are about.  The
unbounded retry loop `wait_for_port` is embedded with explicit fuel: `none`
means the loop did not finish within the given fuel.
-/

/-- Host paths as the Rust code constructs them: `canon cs` is the result of
`fs::canonicalize` (an absolute path with component list `cs`; `canon []` is the
filesystem root `/`), `raw s` an uninterpreted path such as `"."`,
`join p seg` is Rust `p.join(seg)`, and `sibling p sfx` is the path built by
`format!("{}.{}", p.display(), sfx)` in `init_mfs`. -/
inductive MPath
  | canon (cs : List String)
  | raw (s : String)
  | join (p : MPath) (seg : String)
  | sibling (p : MPath) (sfx : String)
deriving DecidableEq, Repr

/-- Rust `Path::display` / `to_string_lossy` on the paths of `MPath`. -/
def MPath.display : MPath → String
  | .canon cs => "/" ++ String.intercalate "/" cs
  | .raw s => s
  | .join p seg => p.display ++ "/" ++ seg
  | .sibling p sfx => p.display ++ "." ++ sfx

/-- Rust `Path::file_name` on a canonicalized path: the last component, `none`
for the filesystem root.  (A canonicalized path has no `.`/`..` components and
no trailing separator, so `file_name` is `none` exactly at the root.) -/
def MPath.fileNameCanon (cs : List String) : Option String :=
  cs.getLast?

/-- A command / subprocess argument: either a literal string or a path
(`Command::arg` receives both in the source). -/
inductive Arg
  | s (v : String)
  | p (v : MPath)
deriving DecidableEq, Repr

/-- Embeds `std::io::ErrorKind`, restricted to what the embedded code distinguishes. -/
inductive IOErrorKind
  | notFound
  | other (s : String)
deriving DecidableEq, Repr

/-- A `std::io::Error`: a kind and a message. -/
structure IOErr where
  kind : IOErrorKind
  msg : String
deriving DecidableEq, Repr

/-- Embeds `nix::errno::Errno`, restricted to what `detach_mfs` distinguishes:
`ESRCH` (no such process) versus anything else. -/
inductive Errno
  | esrch
  | other (s : String)
deriving DecidableEq, Repr

/-- The variants of `FsError` (from `src/lib/error.rs`) that the management
functions construct or propagate.  Errors produced by external collaborators
(port allocator, database init, root finder, binary resolution) are carried
opaquely by their message. -/
inductive FsError
  | IoError (kind : IOErrorKind) (msg : String)
  | MountPointNotEmpty (p : String)
  | MountFailed (status : Int)
  | UnmountFailed (status : Int)
  | Custom (msg : String)
  | External (msg : String)
deriving DecidableEq, Repr

/-- Observable events: each external effect the management functions perform,
in program order. -/
inductive Event
  | createDirAll (p : MPath)
  | canonicalizePath (p : MPath)
  | findPort
  | createFile (p : MPath)
  | initDb (p : MPath)
  | resolveExe
  | spawn (exe : MPath) (args : List Arg)
  | readDir (p : MPath)
  | waitPort (host : String) (port : Nat)
  | runCmd (name : String) (args : List Arg)
  | symlink (target : MPath) (link : MPath)
  | findRoot (p : MPath)
  | readLink (p : MPath)
  | getDbPool (p : MPath)
  | queryPid (db : MPath) (mountDir : String)
  | getpgid (pid : Int)
  | sigterm (pid : Int)
  | warnKillFailed (pid : Int)
  | infoProcGone (pid : Int)
  | warnCheckFailed (pid : Int)
  | warnNoPid (p : MPath)
  | errorDbQuery
deriving DecidableEq, Repr

/-- Modelled from the spec: the path constants live in `utils::path`, which is
not under `src/`.  The spec fixes their roles (a log subdirectory, a
block-store subdirectory, a single-file database, a fixed-name marker symlink,
a metadata-directory suffix); their concrete spellings do not affect any
claim, so representative values are used. -/
def LOG_SUBDIR : String := "log"

/-- Modelled from the spec: block-store subdirectory name (see `LOG_SUBDIR`). -/
def BLOCKS_SUBDIR : String := "blocks"

/-- Modelled from the spec: database file name (see `LOG_SUBDIR`). -/
def FS_DB_FILENAME : String := "fs.db"

/-- Modelled from the spec: metadata-directory suffix, as in
`<mount_dir>.<suffix>` (see `LOG_SUBDIR`). -/
def MFS_DIR_SUFFIX : String := "mfs"

/-- Modelled from the spec: fixed file name of the marker symlink created in
the mount directory (see `LOG_SUBDIR`). -/
def MFS_LINK_FILENAME : String := ".mfs_link"

/-- Modelled from the spec: `DEFAULT_HOST` lives in `config`, not under
`src/`; its concrete value does not affect any claim. -/
def DEFAULT_HOST : String := "127.0.0.1"

/-- The oracle for every external effect.  Each field gives the outcome the
outside world would produce for that call; the embedded functions consult it
in program order. -/
structure Env where
  /-- Outcome of `tokio::fs::create_dir_all`. -/
  createDirAll : MPath → Except IOErr Unit
  /-- Outcome of `tokio::fs::canonicalize`: on success, the component list of the
  canonical absolute path. -/
  canonicalize : MPath → Except IOErr (List String)
  /-- Outcome of `Path::exists`. -/
  pathExists : MPath → Bool
  /-- Outcome of `tokio::fs::File::create`. -/
  createFile : MPath → Except IOErr Unit
  /-- Outcome of `db::init_db` (external collaborator: create schema via migrations). -/
  initDb : MPath → Except FsError Unit
  /-- Outcome of `super::find_available_port DEFAULT_HOST DEFAULT_NFS_PORT`
  (external collaborator). -/
  findAvailablePort : Except FsError Nat
  /-- Outcome of `microsandbox_utils::path::resolve_env_path` (external collaborator). -/
  resolveEnvPath : Except FsError MPath
  /-- Outcome of `Command::new(exe).args(...).spawn()`: on success the child PID. -/
  spawn : MPath → List Arg → Except IOErr Nat
  /-- Outcome of `fs::read_dir` followed by one `next_entry`: on success, whether the
  directory holds at least one entry. -/
  readDirHasEntry : MPath → Except IOErr Bool
  /-- Outcome of `TcpStream::connect` on the n-th attempt of `wait_for_port`. -/
  connects : Nat → Bool
  /-- Outcome of `Command::new(name).args(args).status()`: on success the exit code
  (Rust `ExitStatus::success` is code 0). -/
  commandStatus : String → List Arg → Except IOErr Int
  /-- Outcome of `tokio::fs::symlink target link`. -/
  symlink : MPath → MPath → Except IOErr Unit
  /-- Outcome of `find::find_mfs_root` (external collaborator). -/
  findMfsRoot : MPath → Except FsError MPath
  /-- Outcome of `tokio::fs::read_link`. -/
  readLink : MPath → Except IOErr MPath
  /-- Outcome of `db::get_db_pool` (external collaborator); the pool itself is opaque. -/
  getDbPool : MPath → Except FsError Unit
  /-- The `SELECT supervisor_pid FROM filesystems WHERE mount_dir = ?` query:
  outer `Option` is row presence (`fetch_optional`), inner `Option` the
  nullable `supervisor_pid` column. -/
  queryPid : MPath → String → Except String (Option (Option Int))
  /-- Outcome of `nix::unistd::getpgid`. -/
  getpgid : Int → Except Errno Int
  /-- Outcome of `signal::kill pid SIGTERM`. -/
  kill : Int → Except String Unit

/-- The retry loop of `wait_for_port`, fuel-indexed.  `attempt` counts
connection attempts made so far, `slept` the milliseconds slept so far; each
failed attempt sleeps exactly 50 ms (`retry_delay = 50` in the source).
Returns `some (n, slept)` when attempt `n` succeeds, `none` when fuel runs out
before any attempt succeeds. -/
def waitForPortAux (connects : Nat → Bool) : Nat → Nat → Nat → Option (Nat × Nat)
  | 0, _, _ => none
  | fuel + 1, attempt, slept =>
    if connects attempt then some (attempt, slept)
    else waitForPortAux connects fuel (attempt + 1) (slept + 50)

/-- Embeds `wait_for_port host port`: loop from the first attempt with nothing slept.
The function has return type `()` in the source — it can only succeed or keep
looping, never return an error; here `some (n, s)` reports which attempt
succeeded and the total sleep, and `none` means the loop was still running
when the fuel ran out. -/
def wait_for_port (connects : Nat → Bool) (fuel : Nat) : Option (Nat × Nat) :=
  waitForPortAux connects fuel 0 0

/-- Outcome of `mount_fs`: success, an `FsError`, or divergence of the
port-wait loop (the fuel ran out while it was still polling). -/
inductive MountOutcome
  | ok
  | err (e : FsError)
  | diverged
deriving DecidableEq, Repr

/-- The argument list of the host mount command built in `mount_fs`:
`mount -t nfs -o nolocks,vers=3,tcp,port=<P>,mountport=<P>,soft <host>:/ <dir>`. -/
def mountArgs (host : String) (port : Nat) (mount_dir : MPath) : List Arg :=
  [Arg.s "-t", Arg.s "nfs", Arg.s "-o",
   Arg.s ("nolocks,vers=3,tcp,port=" ++ toString port ++ ",mountport="
     ++ toString port ++ ",soft"),
   Arg.s (host ++ ":/"), Arg.p mount_dir]

/-- Embeds `mount_fs mount_dir host port`: create the mount point if absent, fail
`MountPointNotEmpty` if reading it yields an entry, wait for the port, then
run the host `mount` command; a non-zero exit code is `MountFailed`. -/
def mount_fs (env : Env) (fuel : Nat) (mount_dir : MPath) (host : String)
    (port : Nat) : List Event × MountOutcome :=
  match env.createDirAll mount_dir with
  | .error e => ([.createDirAll mount_dir], .err (.IoError e.kind e.msg))
  | .ok _ =>
  match env.readDirHasEntry mount_dir with
  | .error e =>
      ([.createDirAll mount_dir, .readDir mount_dir], .err (.IoError e.kind e.msg))
  | .ok true =>
      ([.createDirAll mount_dir, .readDir mount_dir],
        .err (.MountPointNotEmpty mount_dir.display))
  | .ok false =>
  match wait_for_port env.connects fuel with
  | none =>
      ([.createDirAll mount_dir, .readDir mount_dir, .waitPort host port], .diverged)
  | some _ =>
    let args := mountArgs host port mount_dir
    let pre := [Event.createDirAll mount_dir, Event.readDir mount_dir,
      Event.waitPort host port, Event.runCmd "mount" args]
    match env.commandStatus "mount" args with
    | .error e => (pre, .err (.IoError e.kind e.msg))
    | .ok code => if code = 0 then (pre, .ok) else (pre, .err (.MountFailed code))

/-- The argument list of the host unmount command built in `unmount_fs`:
`umount [-f] <mount_dir>`. -/
def umountArgs (force : Bool) (mount_dir : MPath) : List Arg :=
  if force then [Arg.s "-f", Arg.p mount_dir] else [Arg.p mount_dir]

/-- Embeds `unmount_fs mount_dir force`: fail with a not-found I/O error if the
mount point does not exist, else run `umount [-f] <mount_dir>`; a non-zero
exit code is `UnmountFailed`. -/
def unmount_fs (env : Env) (mount_dir : MPath) (force : Bool) :
    List Event × Except FsError Unit :=
  if env.pathExists mount_dir = false then
    ([], .error (.IoError .notFound
      ("Mount point does not exist: " ++ mount_dir.display)))
  else
    let args := umountArgs force mount_dir
    match env.commandStatus "umount" args with
    | .error e => ([.runCmd "umount" args], .error (.IoError e.kind e.msg))
    | .ok code =>
      if code = 0 then ([.runCmd "umount" args], .ok ())
      else ([.runCmd "umount" args], .error (.UnmountFailed code))

/-- Embeds `get_fs_db_path mfs_root`: read the marker symlink to recover the
metadata directory, then append the database file name. -/
def get_fs_db_path (env : Env) (mfs_root : MPath) :
    List Event × Except FsError MPath :=
  let mfs_link := MPath.join mfs_root MFS_LINK_FILENAME
  match env.readLink mfs_link with
  | .error e => ([.readLink mfs_link], .error (.IoError e.kind e.msg))
  | .ok mfs_data_dir =>
      ([.readLink mfs_link], .ok (MPath.join mfs_data_dir FS_DB_FILENAME))

/-- Embeds `get_supervisor_pid fs_db_path mount_dir`: open the pool, run
`SELECT supervisor_pid FROM filesystems WHERE mount_dir = ?`
(`fetch_optional`), map a query error through `FsError::custom`, and return
`record.and_then(|row| row.get("supervisor_pid"))` — `none` both when no row
matches and when the row's `supervisor_pid` column is NULL. -/
def get_supervisor_pid (env : Env) (fs_db_path mount_dir : MPath) :
    List Event × Except FsError (Option Int) :=
  match env.getDbPool fs_db_path with
  | .error e => ([.getDbPool fs_db_path], .error e)
  | .ok _ =>
    let mountStr := mount_dir.display
    match env.queryPid fs_db_path mountStr with
    | .error e =>
        ([.getDbPool fs_db_path, .queryPid fs_db_path mountStr], .error (.Custom e))
    | .ok record =>
        ([.getDbPool fs_db_path, .queryPid fs_db_path mountStr],
          .ok (record.bind (fun row => row)))

/-- The best-effort supervisor-termination block of `detach_mfs`, entered when
a PID was found: check liveness with `getpgid`; if alive, send SIGTERM (a kill
failure only warns); `ESRCH` means the process is already gone; any other
liveness-check error only warns.  No branch produces an error value. -/
def terminate_supervisor (env : Env) (pid : Int) : List Event :=
  match env.getpgid pid with
  | .ok _ =>
    match env.kill pid with
    | .error _ => [.getpgid pid, .sigterm pid, .warnKillFailed pid]
    | .ok _ => [.getpgid pid, .sigterm pid]
  | .error .esrch => [.getpgid pid, .infoProcGone pid]
  | .error (.other _) => [.getpgid pid, .warnCheckFailed pid]

/-- Embeds `detach_mfs mount_dir force`: find the MFS root, derive the database path
from the marker symlink, unmount, then best-effort terminate the supervisor
(a missing PID logs a warning, a query failure logs an error; neither is
fatal) and return `Ok(())`. -/
def detach_mfs (env : Env) (mount_dir : Option MPath) (force : Bool) :
    List Event × Except FsError Unit :=
  let start_path := mount_dir.getD (MPath.raw ".")
  match env.findMfsRoot start_path with
  | .error e => ([.findRoot start_path], .error e)
  | .ok mfs_root =>
    let (t1, rdb) := get_fs_db_path env mfs_root
    match rdb with
    | .error e => (Event.findRoot start_path :: t1, .error e)
    | .ok db_path =>
      let (t2, ru) := unmount_fs env mfs_root force
      match ru with
      | .error e => (Event.findRoot start_path :: (t1 ++ t2), .error e)
      | .ok _ =>
        let (t3, rpid) := get_supervisor_pid env db_path mfs_root
        let t4 :=
          match rpid with
          | .ok (some pid) => terminate_supervisor env pid
          | .ok none => [Event.warnNoPid mfs_root]
          | .error _ => [Event.errorDbQuery]
        (Event.findRoot start_path :: (t1 ++ t2 ++ t3 ++ t4), .ok ())

/-- Outcome of `init_mfs`: the allocated port, an `FsError`, the panic raised
by the `.expect` on `mount_dir.file_name()`, or divergence of the port-wait
loop. -/
inductive InitOutcome
  | ok (port : Nat)
  | err (e : FsError)
  | panicked (msg : String)
  | diverged
deriving DecidableEq, Repr

/-- The argument list passed to the spawned serving subprocess in `init_mfs`:
`supervisor --log-dir <dir> --child-name <name> --host <host> --port <port>
--store-dir <dir> --fs-db-path <path> --mount-dir <dir>`. -/
def supervisorArgs (log_dir : MPath) (child_name host : String) (port : Nat)
    (blocks_dir fs_db_path mount_dir : MPath) : List Arg :=
  [Arg.s "supervisor",
   Arg.s "--log-dir", Arg.p log_dir,
   Arg.s "--child-name", Arg.s child_name,
   Arg.s "--host", Arg.s host,
   Arg.s "--port", Arg.s (toString port),
   Arg.s "--store-dir", Arg.p blocks_dir,
   Arg.s "--fs-db-path", Arg.p fs_db_path,
   Arg.s "--mount-dir", Arg.p mount_dir]

/-- The tail of `init_mfs` after the child name has been derived: resolve the
serving binary, spawn it, mount the filesystem, create the marker symlink if
absent, and return the port. -/
def init_rest (env : Env) (fuel : Nat)
    (mount_dir mfs_data_dir log_dir fs_db_path blocks_dir : MPath)
    (port : Nat) (child_name : String) : List Event × InitOutcome :=
  match env.resolveEnvPath with
  | .error e => ([.resolveExe], .err e)
  | .ok mfsrun_path =>
    let args := supervisorArgs log_dir child_name DEFAULT_HOST port blocks_dir
      fs_db_path mount_dir
    match env.spawn mfsrun_path args with
    | .error e =>
        ([.resolveExe, .spawn mfsrun_path args], .err (.IoError e.kind e.msg))
    | .ok _ =>
      let (tm, rm) := mount_fs env fuel mount_dir DEFAULT_HOST port
      let pre := Event.resolveExe :: Event.spawn mfsrun_path args :: tm
      match rm with
      | .err e => (pre, .err e)
      | .diverged => (pre, .diverged)
      | .ok =>
        let link_path := MPath.join mount_dir MFS_LINK_FILENAME
        if env.pathExists link_path then (pre, .ok port)
        else
          match env.symlink mfs_data_dir link_path with
          | .error e =>
              (pre ++ [.symlink mfs_data_dir link_path], .err (.IoError e.kind e.msg))
          | .ok _ => (pre ++ [.symlink mfs_data_dir link_path], .ok port)

/-- Embeds `init_mfs mount_dir`: create and canonicalize the mount directory, create
the adjacent metadata directory, find a port, create the log directory, create
the database file if absent, run migrations, create the blocks directory,
derive the child name (panicking if the canonical path has no final
component), then `init_rest`. -/
def init_mfs (env : Env) (fuel : Nat) (mount_dirOpt : Option MPath) :
    List Event × InitOutcome :=
  let mount_dir0 := mount_dirOpt.getD (MPath.raw ".")
  match env.createDirAll mount_dir0 with
  | .error e => ([.createDirAll mount_dir0], .err (.IoError e.kind e.msg))
  | .ok _ =>
  match env.canonicalize mount_dir0 with
  | .error e =>
      ([.createDirAll mount_dir0, .canonicalizePath mount_dir0],
        .err (.IoError e.kind e.msg))
  | .ok cs =>
  let mount_dir := MPath.canon cs
  let mfs_data_dir := MPath.sibling mount_dir MFS_DIR_SUFFIX
  let t0 := [Event.createDirAll mount_dir0, Event.canonicalizePath mount_dir0]
  match env.createDirAll mfs_data_dir with
  | .error e => (t0 ++ [.createDirAll mfs_data_dir], .err (.IoError e.kind e.msg))
  | .ok _ =>
  let t1 := t0 ++ [Event.createDirAll mfs_data_dir]
  match env.findAvailablePort with
  | .error e => (t1 ++ [.findPort], .err e)
  | .ok port =>
  let t2 := t1 ++ [Event.findPort]
  let log_dir := MPath.join mfs_data_dir LOG_SUBDIR
  match env.createDirAll log_dir with
  | .error e => (t2 ++ [.createDirAll log_dir], .err (.IoError e.kind e.msg))
  | .ok _ =>
  let t3 := t2 ++ [Event.createDirAll log_dir]
  let fs_db_path := MPath.join mfs_data_dir FS_DB_FILENAME
  let fileStep : List Event × Option IOErr :=
    if env.pathExists fs_db_path then ([], none)
    else
      match env.createFile fs_db_path with
      | .error e => ([Event.createFile fs_db_path], some e)
      | .ok _ => ([Event.createFile fs_db_path], none)
  match fileStep with
  | (tf, some e) => (t3 ++ tf, .err (.IoError e.kind e.msg))
  | (tf, none) =>
  let t4 := t3 ++ tf
  match env.initDb fs_db_path with
  | .error e => (t4 ++ [.initDb fs_db_path], .err e)
  | .ok _ =>
  let t5 := t4 ++ [Event.initDb fs_db_path]
  let blocks_dir := MPath.join mfs_data_dir BLOCKS_SUBDIR
  match env.createDirAll blocks_dir with
  | .error e => (t5 ++ [.createDirAll blocks_dir], .err (.IoError e.kind e.msg))
  | .ok _ =>
  let t6 := t5 ++ [Event.createDirAll blocks_dir]
  match MPath.fileNameCanon cs with
  | none => (t6, .panicked "failed to get file name for mount point")
  | some child_name =>
    let (tr, r) := init_rest env fuel mount_dir mfs_data_dir log_dir fs_db_path
      blocks_dir port child_name
    (t6 ++ tr, r)

/-- Whether an event is the symlink-creation effect. -/
def isSymlinkEvent : Event → Bool
  | .symlink _ _ => true
  | _ => false

/-- The metadata directory `init_mfs` derives for canonical mount directory
`cs` (`format!("{}.{}", mount_dir.display(), MFS_DIR_SUFFIX)`). -/
def dataDirOf (cs : List String) : MPath :=
  MPath.sibling (MPath.canon cs) MFS_DIR_SUFFIX

/-- The log directory `init_mfs` derives for `cs`. -/
def logDirOf (cs : List String) : MPath := MPath.join (dataDirOf cs) LOG_SUBDIR

/-- The database path `init_mfs` derives for `cs`. -/
def dbPathOf (cs : List String) : MPath := MPath.join (dataDirOf cs) FS_DB_FILENAME

/-- The block-store directory `init_mfs` derives for `cs`. -/
def blocksDirOf (cs : List String) : MPath :=
  MPath.join (dataDirOf cs) BLOCKS_SUBDIR

/-- The marker-symlink path `init_mfs` derives for `cs`. -/
def linkPathOf (cs : List String) : MPath :=
  MPath.join (MPath.canon cs) MFS_LINK_FILENAME

/-- The full supervisor argument list `init_mfs` builds for canonical mount
directory `cs`, child name `name` and port `port`. -/
def initArgsOf (cs : List String) (name : String) (port : Nat) : List Arg :=
  supervisorArgs (logDirOf cs) name DEFAULT_HOST port (blocksDirOf cs)
    (dbPathOf cs) (MPath.canon cs)

/-- The event trace of a fully successful `init_mfs` run in which the
database file and the marker link did not previously exist. -/
def initSuccessTrace (dir0 : MPath) (cs : List String) (port : Nat)
    (exe : MPath) (name : String) : List Event :=
  [Event.createDirAll dir0, Event.canonicalizePath dir0,
   Event.createDirAll (dataDirOf cs), Event.findPort,
   Event.createDirAll (logDirOf cs), Event.createFile (dbPathOf cs),
   Event.initDb (dbPathOf cs), Event.createDirAll (blocksDirOf cs),
   Event.resolveExe, Event.spawn exe (initArgsOf cs name port),
   Event.createDirAll (MPath.canon cs), Event.readDir (MPath.canon cs),
   Event.waitPort DEFAULT_HOST port,
   Event.runCmd "mount" (mountArgs DEFAULT_HOST port (MPath.canon cs)),
   Event.symlink (dataDirOf cs) (linkPathOf cs)]

/-- Concrete canonical mount directory used to instantiate theorems:
`/tmp/x`. -/
def mntC : MPath := MPath.canon ["tmp", "x"]

/-- The metadata directory adjacent to `mntC`. -/
def dataDirC : MPath := MPath.sibling mntC MFS_DIR_SUFFIX

/-- The database path under `dataDirC`. -/
def dbPathC : MPath := MPath.join dataDirC FS_DB_FILENAME

/-- The log directory under `dataDirC`. -/
def logDirC : MPath := MPath.join dataDirC LOG_SUBDIR

/-- The block-store directory under `dataDirC`. -/
def blocksDirC : MPath := MPath.join dataDirC BLOCKS_SUBDIR

/-- The marker-symlink path inside `mntC`. -/
def linkPathC : MPath := MPath.join mntC MFS_LINK_FILENAME

/-- A concrete oracle on which every external effect succeeds: directories
are created, the canonical mount directory is `/tmp/x`, port 2049 is
allocated, the first TCP connect succeeds, every command exits 0, and the
registry holds PID 42. -/
def envOk : Env where
  createDirAll := fun _ => .ok ()
  canonicalize := fun _ => .ok ["tmp", "x"]
  pathExists := fun _ => false
  createFile := fun _ => .ok ()
  initDb := fun _ => .ok ()
  findAvailablePort := .ok 2049
  resolveEnvPath := .ok (.raw "/usr/bin/mfsrun")
  spawn := fun _ _ => .ok 42
  readDirHasEntry := fun _ => .ok false
  connects := fun _ => true
  commandStatus := fun _ _ => .ok 0
  symlink := fun _ _ => .ok ()
  findMfsRoot := fun _ => .ok mntC
  readLink := fun _ => .ok dataDirC
  getDbPool := fun _ => .ok ()
  queryPid := fun _ _ => .ok (some (some 42))
  getpgid := fun _ => .ok 1
  kill := fun _ => .ok ()

/-- Oracle `envOk` but the mount directory is reported non-empty by `read_dir`. -/
def envNonEmpty : Env :=
  { envOk with readDirHasEntry := fun _ => .ok true }

/-- Oracle `envOk` but every path reported existing (used for `detach` instances,
whose unmount step checks that the mount point exists). -/
def envDetach : Env :=
  { envOk with pathExists := fun _ => true }

/-- Oracle `envOk` but the marker-symlink path inside the mount directory already
exists after the mount (e.g. served by the filesystem itself). -/
def envLinkExists : Env :=
  { envOk with pathExists := fun p => decide (p = linkPathC) }

/-- Oracle `envOk` but canonicalization of the mount directory yields the filesystem
root `/` (no final path component), and the database file already exists. -/
def envRoot : Env :=
  { envOk with canonicalize := fun _ => .ok [], pathExists := fun _ => true }

/-- Oracle `envDetach` but the registry query finds no row for the mount
directory. -/
def envNoRow : Env :=
  { envDetach with queryPid := fun _ _ => .ok none }

/-- Oracle `envDetach` but the registry row exists with a NULL `supervisor_pid`
column. -/
def envNullPid : Env :=
  { envDetach with queryPid := fun _ _ => .ok (some none) }

theorem waitForPortAux_sound (connects : Nat → Bool) :
    ∀ fuel attempt slept n s,
      waitForPortAux connects fuel attempt slept = some (n, s) →
      connects n = true ∧ (∀ m, attempt ≤ m → m < n → connects m = false) ∧
        attempt ≤ n ∧ s = slept + 50 * (n - attempt) := by
  intro fuel
  induction fuel with
  | zero => intro attempt slept n s h; simp [waitForPortAux] at h
  | succ k ih =>
    intro attempt slept n s h
    by_cases hc : connects attempt = true
    · simp [waitForPortAux, hc] at h
      obtain ⟨hn, hs⟩ := h
      subst hn; subst hs
      exact ⟨hc, fun m h1 h2 => absurd (lt_of_le_of_lt h1 h2) (lt_irrefl _),
        le_refl _, by simp⟩
    · simp [waitForPortAux, hc] at h
      obtain ⟨h1, h2, h3, h4⟩ := ih (attempt + 1) (slept + 50) n s h
      refine ⟨h1, ?_, le_trans (Nat.le_succ _) h3, ?_⟩
      · intro m hm1 hm2
        rcases Nat.eq_or_lt_of_le hm1 with hEq | hLt
        · simpa [← hEq] using hc
        · exact h2 m hLt hm2
      · omega

theorem waitForPortAux_none (connects : Nat → Bool)
    (hnone : ∀ n, connects n = false) :
    ∀ fuel attempt slept, waitForPortAux connects fuel attempt slept = none := by
  intro fuel
  induction fuel with
  | zero => intro attempt slept; simp [waitForPortAux]
  | succ k ih => intro attempt slept; simp [waitForPortAux, hnone attempt, ih]

/-- C4: the port-readiness wait returns only when a TCP connect attempt
succeeds; every earlier attempt failed and slept exactly 50 ms (so the total
sleep is 50·n ms after n failed attempts); there is no overall timeout or
retry limit (if no attempt ever succeeds, no amount of fuel makes it return);
and its result carries no error (its return type has none). -/
theorem wait_for_port_spec (connects : Nat → Bool) (fuel : Nat) :
    (∀ n s, wait_for_port connects fuel = some (n, s) →
      connects n = true ∧ (∀ m, m < n → connects m = false) ∧ s = 50 * n) ∧
    ((∀ n, connects n = false) → wait_for_port connects fuel = none) := by
  constructor
  · intro n s h
    obtain ⟨h1, h2, _, h4⟩ := waitForPortAux_sound connects fuel 0 0 n s h
    exact ⟨h1, fun m hm => h2 m (Nat.zero_le m) hm, by simpa using h4⟩
  · intro hnone
    exact waitForPortAux_none connects hnone fuel 0 0

/-- Witness for C4 at a concrete oracle: connecting succeeds on attempt 2,
so the wait returns `(2, 100)` — attempt 2 connected, attempts 0 and 1
failed, and 100 = 50 · 2 ms were slept. -/
theorem wait_for_port_spec_witness :
    (fun n => decide (n = 2)) 2 = true ∧
      (∀ m, m < 2 → (fun n => decide (n = 2)) m = false) ∧ 100 = 50 * 2 :=
  (wait_for_port_spec (fun n => decide (n = 2)) 5).1 2 100 (by decide)

theorem init_mfs_success (env : Env) (fuel : Nat) (dirOpt : Option MPath)
    (cs : List String) (port pid : Nat) (exe : MPath) (name : String)
    (w : Nat × Nat)
    (hcd : ∀ p, env.createDirAll p = .ok ())
    (hca : env.canonicalize (dirOpt.getD (MPath.raw ".")) = .ok cs)
    (hport : env.findAvailablePort = .ok port)
    (hdbE : env.pathExists (dbPathOf cs) = false)
    (hfile : env.createFile (dbPathOf cs) = .ok ())
    (hdb : env.initDb (dbPathOf cs) = .ok ())
    (hname : cs.getLast? = some name)
    (hexe : env.resolveEnvPath = .ok exe)
    (hspawn : env.spawn exe (initArgsOf cs name port) = .ok pid)
    (hrd : env.readDirHasEntry (MPath.canon cs) = .ok false)
    (hw : wait_for_port env.connects fuel = some w)
    (hmnt : env.commandStatus "mount"
      (mountArgs DEFAULT_HOST port (MPath.canon cs)) = .ok 0)
    (hlinkE : env.pathExists (linkPathOf cs) = false)
    (hsym : env.symlink (dataDirOf cs) (linkPathOf cs) = .ok ()) :
    init_mfs env fuel dirOpt =
      (initSuccessTrace (dirOpt.getD (MPath.raw ".")) cs port exe name,
        .ok port) := by
  simp only [initArgsOf, dataDirOf, logDirOf, dbPathOf, blocksDirOf,
    linkPathOf] at hdbE hfile hdb hspawn hmnt hlinkE hsym
  simp [init_mfs, init_rest, mount_fs, initSuccessTrace, initArgsOf,
    dataDirOf, logDirOf, dbPathOf, blocksDirOf, linkPathOf,
    MPath.fileNameCanon, hcd, hca, hport, hdbE, hfile, hdb, hname, hexe,
    hspawn, hrd, hw, hmnt, hlinkE, hsym]

theorem init_mfs_success_linkExists (env : Env) (fuel : Nat)
    (dirOpt : Option MPath) (cs : List String) (port pid : Nat) (exe : MPath)
    (name : String) (w : Nat × Nat)
    (hcd : ∀ p, env.createDirAll p = .ok ())
    (hca : env.canonicalize (dirOpt.getD (MPath.raw ".")) = .ok cs)
    (hport : env.findAvailablePort = .ok port)
    (hdbE : env.pathExists (dbPathOf cs) = false)
    (hfile : env.createFile (dbPathOf cs) = .ok ())
    (hdb : env.initDb (dbPathOf cs) = .ok ())
    (hname : cs.getLast? = some name)
    (hexe : env.resolveEnvPath = .ok exe)
    (hspawn : env.spawn exe (initArgsOf cs name port) = .ok pid)
    (hrd : env.readDirHasEntry (MPath.canon cs) = .ok false)
    (hw : wait_for_port env.connects fuel = some w)
    (hmnt : env.commandStatus "mount"
      (mountArgs DEFAULT_HOST port (MPath.canon cs)) = .ok 0)
    (hlinkT : env.pathExists (linkPathOf cs) = true) :
    init_mfs env fuel dirOpt =
      ((initSuccessTrace (dirOpt.getD (MPath.raw ".")) cs port exe
        name).dropLast, .ok port) := by
  simp only [initArgsOf, dataDirOf, logDirOf, dbPathOf, blocksDirOf,
    linkPathOf] at hdbE hfile hdb hspawn hmnt hlinkT
  simp [init_mfs, init_rest, mount_fs, initSuccessTrace, initArgsOf,
    dataDirOf, logDirOf, dbPathOf, blocksDirOf, linkPathOf,
    MPath.fileNameCanon, hcd, hca, hport, hdbE, hfile, hdb, hname, hexe,
    hspawn, hrd, hw, hmnt, hlinkT]

/-- C3 (counterexample): on a concrete fully successful run, the schema
migration of the metadata database (`initDb`) happens strictly before the
creation of the block-store directory, so it is false that both metadata
subdirectories are created before the database file and its migrations. -/
theorem init_subdir_order_cex :
    Event.initDb dbPathC ∈ (init_mfs envOk 1 (some (MPath.raw "x"))).1 ∧
    Event.createDirAll blocksDirC ∈ (init_mfs envOk 1 (some (MPath.raw "x"))).1 ∧
    List.indexOf (Event.initDb dbPathC)
        (init_mfs envOk 1 (some (MPath.raw "x"))).1 <
      List.indexOf (Event.createDirAll blocksDirC)
        (init_mfs envOk 1 (some (MPath.raw "x"))).1 := by
  decide

/-- C3 (amended): on a successful run the init steps execute strictly in the
source order — create/canonicalize the mount directory, create the metadata
directory, allocate the port, create the log directory, create the database
file, apply the migrations, create the block-store directory, spawn the
supervisor, mount, link: the log directory is created before the database
file, but the block-store directory is created only after the database file
is created and its migrations are applied (and before the supervisor spawn),
as the full trace equality shows; the sublist conjunct singles out that
order. -/
theorem init_steps_source_order (env : Env) (fuel : Nat)
    (dirOpt : Option MPath) (cs : List String) (port pid : Nat) (exe : MPath)
    (name : String) (w : Nat × Nat)
    (hcd : ∀ p, env.createDirAll p = .ok ())
    (hca : env.canonicalize (dirOpt.getD (MPath.raw ".")) = .ok cs)
    (hport : env.findAvailablePort = .ok port)
    (hdbE : env.pathExists (dbPathOf cs) = false)
    (hfile : env.createFile (dbPathOf cs) = .ok ())
    (hdb : env.initDb (dbPathOf cs) = .ok ())
    (hname : cs.getLast? = some name)
    (hexe : env.resolveEnvPath = .ok exe)
    (hspawn : env.spawn exe (initArgsOf cs name port) = .ok pid)
    (hrd : env.readDirHasEntry (MPath.canon cs) = .ok false)
    (hw : wait_for_port env.connects fuel = some w)
    (hmnt : env.commandStatus "mount"
      (mountArgs DEFAULT_HOST port (MPath.canon cs)) = .ok 0)
    (hlinkE : env.pathExists (linkPathOf cs) = false)
    (hsym : env.symlink (dataDirOf cs) (linkPathOf cs) = .ok ()) :
    init_mfs env fuel dirOpt =
      (initSuccessTrace (dirOpt.getD (MPath.raw ".")) cs port exe name,
        .ok port) ∧
    List.Sublist
      [Event.createDirAll (logDirOf cs), Event.createFile (dbPathOf cs),
       Event.initDb (dbPathOf cs), Event.createDirAll (blocksDirOf cs),
       Event.spawn exe (initArgsOf cs name port)]
      (init_mfs env fuel dirOpt).1 := by
  have h := init_mfs_success env fuel dirOpt cs port pid exe name w hcd hca
    hport hdbE hfile hdb hname hexe hspawn hrd hw hmnt hlinkE hsym
  refine ⟨h, ?_⟩
  rw [h]
  simp only [initSuccessTrace]
  exact .cons _ (.cons _ (.cons _ (.cons _ (.cons₂ _ (.cons₂ _ (.cons₂ _
    (.cons₂ _ (.cons _ (.cons₂ _ (List.nil_sublist _))))))))))

/-- Witness for the amended C3 at the concrete all-success oracle. -/
theorem init_steps_source_order_witness :
    init_mfs envOk 1 (some (MPath.raw "x")) =
      (initSuccessTrace (MPath.raw "x") ["tmp", "x"] 2049
        (MPath.raw "/usr/bin/mfsrun") "x", .ok 2049) :=
  (init_steps_source_order envOk 1 (some (MPath.raw "x")) ["tmp", "x"] 2049 42
    (MPath.raw "/usr/bin/mfsrun") "x" (0, 0) (fun _ => rfl) rfl rfl rfl rfl
    rfl rfl rfl rfl rfl (by decide) rfl rfl rfl).1

/-- C8 (counterexample): when the marker-link path already exists inside the
mounted directory, a fully successful `init` returns the port without
creating any symbolic link, so it is false that init always creates the
symlink after a successful mount. -/
theorem init_symlink_skipped_cex :
    (init_mfs envLinkExists 1 (some (MPath.raw "x"))).2 = .ok 2049 ∧
    Event.symlink dataDirC linkPathC ∉
      (init_mfs envLinkExists 1 (some (MPath.raw "x"))).1 ∧
    (init_mfs envLinkExists 1 (some (MPath.raw "x"))).1.all
      (fun e => !(isSymlinkEvent e)) = true := by
  decide

/-- C8 (amended): after the host mount succeeds, init creates the symbolic
link (pointing at the metadata directory) only if the link path does not
already exist, and then returns the allocated port; when the link path
already exists, the creation is skipped and the port is still returned. -/
theorem init_symlink_amended (env : Env) (fuel : Nat) (dirOpt : Option MPath)
    (cs : List String) (port pid : Nat) (exe : MPath) (name : String)
    (w : Nat × Nat)
    (hcd : ∀ p, env.createDirAll p = .ok ())
    (hca : env.canonicalize (dirOpt.getD (MPath.raw ".")) = .ok cs)
    (hport : env.findAvailablePort = .ok port)
    (hdbE : env.pathExists (dbPathOf cs) = false)
    (hfile : env.createFile (dbPathOf cs) = .ok ())
    (hdb : env.initDb (dbPathOf cs) = .ok ())
    (hname : cs.getLast? = some name)
    (hexe : env.resolveEnvPath = .ok exe)
    (hspawn : env.spawn exe (initArgsOf cs name port) = .ok pid)
    (hrd : env.readDirHasEntry (MPath.canon cs) = .ok false)
    (hw : wait_for_port env.connects fuel = some w)
    (hmnt : env.commandStatus "mount"
      (mountArgs DEFAULT_HOST port (MPath.canon cs)) = .ok 0) :
    (env.pathExists (linkPathOf cs) = false →
      env.symlink (dataDirOf cs) (linkPathOf cs) = .ok () →
      (init_mfs env fuel dirOpt).2 = .ok port ∧
      List.Sublist
        [Event.runCmd "mount" (mountArgs DEFAULT_HOST port (MPath.canon cs)),
         Event.symlink (dataDirOf cs) (linkPathOf cs)]
        (init_mfs env fuel dirOpt).1) ∧
    (env.pathExists (linkPathOf cs) = true →
      (init_mfs env fuel dirOpt).2 = .ok port ∧
      Event.symlink (dataDirOf cs) (linkPathOf cs) ∉
        (init_mfs env fuel dirOpt).1) := by
  constructor
  · intro hlinkE hsym
    have h := init_mfs_success env fuel dirOpt cs port pid exe name w hcd hca
      hport hdbE hfile hdb hname hexe hspawn hrd hw hmnt hlinkE hsym
    rw [h]
    refine ⟨rfl, ?_⟩
    simp only [initSuccessTrace]
    exact .cons _ (.cons _ (.cons _ (.cons _ (.cons _ (.cons _ (.cons _
      (.cons _ (.cons _ (.cons _ (.cons _ (.cons _ (.cons _
      (.cons₂ _ (.cons₂ _ (List.nil_sublist _)))))))))))))))
  · intro hlinkT
    have h := init_mfs_success_linkExists env fuel dirOpt cs port pid exe name
      w hcd hca hport hdbE hfile hdb hname hexe hspawn hrd hw hmnt hlinkT
    rw [h]
    refine ⟨rfl, ?_⟩
    simp [initSuccessTrace]

/-- Witness for the amended C8 at the concrete all-success oracle: the link
was absent, so it is created right after the mount command and the port is
returned. -/
theorem init_symlink_amended_witness :
    (init_mfs envOk 1 (some (MPath.raw "x"))).2 = .ok 2049 ∧
    List.Sublist
      [Event.runCmd "mount" (mountArgs DEFAULT_HOST 2049
         (MPath.canon ["tmp", "x"])),
       Event.symlink (dataDirOf ["tmp", "x"]) (linkPathOf ["tmp", "x"])]
      (init_mfs envOk 1 (some (MPath.raw "x"))).1 :=
  (init_symlink_amended envOk 1 (some (MPath.raw "x")) ["tmp", "x"] 2049 42
    (MPath.raw "/usr/bin/mfsrun") "x" (0, 0) (fun _ => rfl) rfl rfl rfl rfl
    rfl rfl rfl rfl rfl (by decide) rfl).1 rfl rfl

theorem init_rest_ne_panicked (env : Env) (fuel : Nat) (md dd ld db bd : MPath)
    (port : Nat) (nm : String) (m : String) :
    (init_rest env fuel md dd ld db bd port nm).2 ≠ .panicked m := by
  unfold init_rest
  rcases hx : env.resolveEnvPath with e | exe
  · simp
  · rcases hsp : env.spawn exe (supervisorArgs ld nm DEFAULT_HOST port bd db md)
      with e | pid
    · simp [hsp]
    · rcases hm : mount_fs env fuel md DEFAULT_HOST port with ⟨tm, rm⟩
      simp only [hsp, hm]
      rcases rm with _ | e | _
      · by_cases hl : env.pathExists (MPath.join md MFS_LINK_FILENAME)
        · simp [hl]
        · rcases hs : env.symlink dd (MPath.join md MFS_LINK_FILENAME)
            with e | u
          · simp [hl, hs]
          · simp [hl, hs]
      · simp
      · simp

/-- C9: if the canonicalized mount directory has no final path component
(the filesystem root, `canon []`), `init` reaches the `.expect` on
`file_name()` and panics with its message instead of returning an error
value (given that the preceding steps succeeded); for every other
canonicalized mount directory, `init` never panics — the branch is
unreachable. -/
theorem init_root_panic_spec (env : Env) (fuel : Nat) (dirOpt : Option MPath)
    (cs : List String)
    (hca : env.canonicalize (dirOpt.getD (MPath.raw ".")) = .ok cs) :
    (cs = [] →
      (∀ p, env.createDirAll p = .ok ()) →
      ∀ port, env.findAvailablePort = .ok port →
      env.pathExists (dbPathOf cs) = true →
      env.initDb (dbPathOf cs) = .ok () →
      (init_mfs env fuel dirOpt).2 =
        .panicked "failed to get file name for mount point") ∧
    (cs ≠ [] → ∀ m, (init_mfs env fuel dirOpt).2 ≠ .panicked m) := by
  constructor
  · intro hcs hcd port hport hdbT hdb
    subst hcs
    simp only [dbPathOf, dataDirOf] at hdbT hdb
    simp [init_mfs, MPath.fileNameCanon, hca, hcd, hport, hdbT, hdb]
  · intro hcs m
    unfold init_mfs
    rcases h1 : env.createDirAll (dirOpt.getD (MPath.raw ".")) with e | u1
    · simp [h1]
    · simp only [h1, hca]
      rcases h2 : env.createDirAll (MPath.sibling (MPath.canon cs)
          MFS_DIR_SUFFIX) with e | u2
      · simp [h2]
      · rcases h3 : env.findAvailablePort with e | port
        · simp [h2, h3]
        · rcases h4 : env.createDirAll (MPath.join (MPath.sibling
              (MPath.canon cs) MFS_DIR_SUFFIX) LOG_SUBDIR) with e | u4
          · simp [h2, h3, h4]
          · by_cases h5 : env.pathExists (MPath.join (MPath.sibling
                (MPath.canon cs) MFS_DIR_SUFFIX) FS_DB_FILENAME)
            · rcases h7 : env.initDb (MPath.join (MPath.sibling
                  (MPath.canon cs) MFS_DIR_SUFFIX) FS_DB_FILENAME) with e | u7
              · simp [h2, h3, h4, h5, h7]
              · rcases h8 : env.createDirAll (MPath.join (MPath.sibling
                    (MPath.canon cs) MFS_DIR_SUFFIX) BLOCKS_SUBDIR) with e | u8
                · simp [h2, h3, h4, h5, h7, h8]
                · obtain ⟨nm, hnm⟩ := Option.isSome_iff_exists.mp
                    (List.getLast?_isSome.mpr hcs)
                  simp [h2, h3, h4, h5, h7, h8, MPath.fileNameCanon, hnm,
                    init_rest_ne_panicked]
            · rcases h6 : env.createFile (MPath.join (MPath.sibling
                  (MPath.canon cs) MFS_DIR_SUFFIX) FS_DB_FILENAME) with e | u6
              · simp [h2, h3, h4, h5, h6]
              · rcases h7 : env.initDb (MPath.join (MPath.sibling
                    (MPath.canon cs) MFS_DIR_SUFFIX) FS_DB_FILENAME) with e | u7
                · simp [h2, h3, h4, h5, h6, h7]
                · rcases h8 : env.createDirAll (MPath.join (MPath.sibling
                      (MPath.canon cs) MFS_DIR_SUFFIX) BLOCKS_SUBDIR)
                      with e | u8
                  · simp [h2, h3, h4, h5, h6, h7, h8]
                  · obtain ⟨nm, hnm⟩ := Option.isSome_iff_exists.mp
                      (List.getLast?_isSome.mpr hcs)
                    simp [h2, h3, h4, h5, h6, h7, h8, MPath.fileNameCanon,
                      hnm, init_rest_ne_panicked]

/-- Witness for C9: at an oracle whose canonicalization yields the filesystem
root, a concrete `init` run panics with the expect message. -/
theorem init_root_panic_spec_witness :
    (init_mfs envRoot 1 (some (MPath.raw "x"))).2 =
      .panicked "failed to get file name for mount point" :=
  (init_root_panic_spec envRoot 1 (some (MPath.raw "x")) [] rfl).1 rfl
    (fun _ => rfl) 2049 rfl rfl rfl

theorem mount_fs_no_spawn (env : Env) (fuel : Nat) (md : MPath)
    (host : String) (port : Nat) (e : MPath) (args : List Arg) :
    Event.spawn e args ∉ (mount_fs env fuel md host port).1 := by
  unfold mount_fs
  rcases h1 : env.createDirAll md with e1 | u1
  · simp
  · rcases h2 : env.readDirHasEntry md with e2 | b
    · simp
    · rcases b
      · rcases h3 : wait_for_port env.connects fuel with _ | w
        · simp [h3]
        · rcases h4 : env.commandStatus "mount" (mountArgs host port md)
            with e4 | c
          · simp [h3, h4]
          · by_cases h5 : c = 0 <;> simp [h3, h4, h5]
      · simp

theorem mount_fs_runCmd_unique (env : Env) (fuel : Nat) (md : MPath)
    (host : String) (port : Nat) (nm : String) (args : List Arg) :
    Event.runCmd nm args ∈ (mount_fs env fuel md host port).1 →
      nm = "mount" ∧ args = mountArgs host port md := by
  unfold mount_fs
  rcases h1 : env.createDirAll md with e1 | u1
  · simp
  · rcases h2 : env.readDirHasEntry md with e2 | b
    · simp
    · rcases b
      · rcases h3 : wait_for_port env.connects fuel with _ | w
        · simp [h3]
        · rcases h4 : env.commandStatus "mount" (mountArgs host port md)
            with e4 | c
          · simp [h3, h4]
          · by_cases h5 : c = 0 <;> simp [h3, h4, h5]
      · simp

theorem mount_fs_empty_run (env : Env) (fuel : Nat) (md : MPath)
    (host : String) (port : Nat) (w : Nat × Nat)
    (hcd : env.createDirAll md = .ok ())
    (hrd : env.readDirHasEntry md = .ok false)
    (hw : wait_for_port env.connects fuel = some w) :
    (mount_fs env fuel md host port).1 =
      [Event.createDirAll md, Event.readDir md, Event.waitPort host port,
       Event.runCmd "mount" (mountArgs host port md)] ∧
    (∀ c, env.commandStatus "mount" (mountArgs host port md) = .ok c →
      (mount_fs env fuel md host port).2 =
        if c = 0 then .ok else .err (.MountFailed c)) := by
  constructor
  · rcases h4 : env.commandStatus "mount" (mountArgs host port md) with e4 | c
    · simp [mount_fs, hcd, hrd, hw, h4]
    · by_cases h5 : c = 0 <;> simp [mount_fs, hcd, hrd, hw, h4, h5]
  · intro c h4
    by_cases h5 : c = 0 <;> simp [mount_fs, hcd, hrd, hw, h4, h5]

theorem init_rest_spawn_error (env : Env) (fuel : Nat) (md dd ld db bd : MPath)
    (port : Nat) (nm : String) (exe : MPath) (io : IOErr)
    (hexe : env.resolveEnvPath = .ok exe)
    (hsp : env.spawn exe (supervisorArgs ld nm DEFAULT_HOST port bd db md) =
      .error io) :
    init_rest env fuel md dd ld db bd port nm =
      ([Event.resolveExe,
        Event.spawn exe (supervisorArgs ld nm DEFAULT_HOST port bd db md)],
       .err (.IoError io.kind io.msg)) := by
  simp [init_rest, hexe, hsp]

theorem init_rest_spawn_mem (env : Env) (fuel : Nat) (md dd ld db bd : MPath)
    (port : Nat) (nm : String) (exe : MPath)
    (hexe : env.resolveEnvPath = .ok exe) :
    Event.spawn exe (supervisorArgs ld nm DEFAULT_HOST port bd db md) ∈
      (init_rest env fuel md dd ld db bd port nm).1 := by
  unfold init_rest
  rcases hsp : env.spawn exe (supervisorArgs ld nm DEFAULT_HOST port bd db md)
    with e | pid
  · simp [hexe, hsp]
  · rcases hm : mount_fs env fuel md DEFAULT_HOST port with ⟨tm, rm⟩
    simp only [hexe, hsp, hm]
    rcases rm with _ | e | _
    · by_cases hl : env.pathExists (MPath.join md MFS_LINK_FILENAME)
      · simp [hl]
      · rcases hs : env.symlink dd (MPath.join md MFS_LINK_FILENAME)
          with e | u <;> simp [hl, hs]
    · simp
    · simp

theorem init_rest_spawn_unique (env : Env) (fuel : Nat)
    (md dd ld db bd : MPath) (port : Nat) (nm : String) (exe e2 : MPath)
    (args : List Arg)
    (hexe : env.resolveEnvPath = .ok exe) :
    Event.spawn e2 args ∈ (init_rest env fuel md dd ld db bd port nm).1 →
      e2 = exe ∧ args = supervisorArgs ld nm DEFAULT_HOST port bd db md := by
  unfold init_rest
  rcases hsp : env.spawn exe (supervisorArgs ld nm DEFAULT_HOST port bd db md)
    with e | pid
  · simp [hexe, hsp]
  · rcases hm : mount_fs env fuel md DEFAULT_HOST port with ⟨tm, rm⟩
    have hnos : ∀ args', Event.spawn e2 args' ∉ tm := by
      intro args'
      have h := mount_fs_no_spawn env fuel md DEFAULT_HOST port e2 args'
      rw [hm] at h; exact h
    simp only [hexe, hsp, hm]
    rcases rm with _ | e | _
    · by_cases hl : env.pathExists (MPath.join md MFS_LINK_FILENAME)
      · simp [hl, hnos]
      · rcases hs : env.symlink dd (MPath.join md MFS_LINK_FILENAME)
          with e | u <;> simp [hl, hs, hnos]
    · simp [hnos]
    · simp [hnos]

theorem init_rest_trace_cases (env : Env) (fuel : Nat)
    (md dd ld db bd : MPath) (port : Nat) (nm : String) (exe : MPath)
    (ev : Event)
    (hexe : env.resolveEnvPath = .ok exe)
    (hin : ev ∈ (init_rest env fuel md dd ld db bd port nm).1) :
    ev = Event.resolveExe ∨
    ev = Event.spawn exe (supervisorArgs ld nm DEFAULT_HOST port bd db md) ∨
    ev ∈ (mount_fs env fuel md DEFAULT_HOST port).1 ∨
    ev = Event.symlink dd (MPath.join md MFS_LINK_FILENAME) := by
  unfold init_rest at hin
  rcases hsp : env.spawn exe (supervisorArgs ld nm DEFAULT_HOST port bd db md)
    with e | pid
  · simp [hexe, hsp] at hin
    tauto
  · rcases hm : mount_fs env fuel md DEFAULT_HOST port with ⟨tm, rm⟩
    simp only [hexe, hsp, hm] at hin
    rcases rm with _ | e | _
    · by_cases hl : env.pathExists (MPath.join md MFS_LINK_FILENAME)
      · rw [if_pos hl] at hin
        simp at hin
        tauto
      · rw [if_neg hl] at hin
        rcases hs : env.symlink dd (MPath.join md MFS_LINK_FILENAME)
          with e | u <;>
        · rw [hs] at hin
          simp at hin
          tauto
    · simp at hin
      tauto
    · simp at hin
      tauto

theorem init_rest_runCmd_unique (env : Env) (fuel : Nat)
    (md dd ld db bd : MPath) (port : Nat) (nm : String) (exe : MPath)
    (nm2 : String) (args : List Arg)
    (hexe : env.resolveEnvPath = .ok exe) :
    Event.runCmd nm2 args ∈ (init_rest env fuel md dd ld db bd port nm).1 →
      nm2 = "mount" ∧ args = mountArgs DEFAULT_HOST port md := by
  intro hin
  rcases init_rest_trace_cases env fuel md dd ld db bd port nm exe _ hexe hin
    with h | h | h | h
  · exact absurd h (by simp)
  · exact absurd h (by simp)
  · exact mount_fs_runCmd_unique env fuel md DEFAULT_HOST port nm2 args h
  · exact absurd h (by simp)

theorem init_rest_mount_mem (env : Env) (fuel : Nat) (md dd ld db bd : MPath)
    (port pid : Nat) (nm : String) (exe : MPath) (ev : Event)
    (hexe : env.resolveEnvPath = .ok exe)
    (hsp : env.spawn exe (supervisorArgs ld nm DEFAULT_HOST port bd db md) =
      .ok pid)
    (hev : ev ∈ (mount_fs env fuel md DEFAULT_HOST port).1) :
    ev ∈ (init_rest env fuel md dd ld db bd port nm).1 := by
  unfold init_rest
  rcases hm : mount_fs env fuel md DEFAULT_HOST port with ⟨tm, rm⟩
  rw [hm] at hev
  simp only [hexe, hsp, hm]
  rcases rm with _ | e | _
  · by_cases hl : env.pathExists (MPath.join md MFS_LINK_FILENAME)
    · simp [hl, hev]
    · rcases hs : env.symlink dd (MPath.join md MFS_LINK_FILENAME)
        with e | u <;> simp [hl, hs, hev]
  · simp [hev]
  · simp [hev]

theorem init_rest_mount_err (env : Env) (fuel : Nat) (md dd ld db bd : MPath)
    (port pid : Nat) (nm : String) (exe : MPath) (e : FsError)
    (hexe : env.resolveEnvPath = .ok exe)
    (hsp : env.spawn exe (supervisorArgs ld nm DEFAULT_HOST port bd db md) =
      .ok pid)
    (hm2 : (mount_fs env fuel md DEFAULT_HOST port).2 = .err e) :
    (init_rest env fuel md dd ld db bd port nm).2 = .err e := by
  unfold init_rest
  rcases hm : mount_fs env fuel md DEFAULT_HOST port with ⟨tm, rm⟩
  rw [hm] at hm2
  simp only at hm2
  subst hm2
  simp [hexe, hsp, hm]

theorem init_rest_mount_ok (env : Env) (fuel : Nat) (md dd ld db bd : MPath)
    (port pid : Nat) (nm : String) (exe : MPath)
    (hexe : env.resolveEnvPath = .ok exe)
    (hsp : env.spawn exe (supervisorArgs ld nm DEFAULT_HOST port bd db md) =
      .ok pid)
    (hm2 : (mount_fs env fuel md DEFAULT_HOST port).2 = .ok) :
    (init_rest env fuel md dd ld db bd port nm).2 = .ok port ∨
      ∃ k m, (init_rest env fuel md dd ld db bd port nm).2 =
        .err (.IoError k m) := by
  unfold init_rest
  rcases hm : mount_fs env fuel md DEFAULT_HOST port with ⟨tm, rm⟩
  rw [hm] at hm2
  simp only at hm2
  subst hm2
  simp only [hexe, hsp, hm]
  by_cases hl : env.pathExists (MPath.join md MFS_LINK_FILENAME)
  · left; simp [hl]
  · rcases hs : env.symlink dd (MPath.join md MFS_LINK_FILENAME) with e | u
    · right; exact ⟨e.kind, e.msg, by simp [hl, hs]⟩
    · left; simp [hl, hs]

theorem init_mfs_to_rest (env : Env) (fuel : Nat) (dirOpt : Option MPath)
    (cs : List String) (port : Nat) (name : String)
    (hcd : ∀ p, env.createDirAll p = .ok ())
    (hca : env.canonicalize (dirOpt.getD (MPath.raw ".")) = .ok cs)
    (hport : env.findAvailablePort = .ok port)
    (hdbE : env.pathExists (dbPathOf cs) = false)
    (hfile : env.createFile (dbPathOf cs) = .ok ())
    (hdb : env.initDb (dbPathOf cs) = .ok ())
    (hname : cs.getLast? = some name) :
    init_mfs env fuel dirOpt =
      ([Event.createDirAll (dirOpt.getD (MPath.raw ".")),
        Event.canonicalizePath (dirOpt.getD (MPath.raw ".")),
        Event.createDirAll (dataDirOf cs), Event.findPort,
        Event.createDirAll (logDirOf cs), Event.createFile (dbPathOf cs),
        Event.initDb (dbPathOf cs), Event.createDirAll (blocksDirOf cs)] ++
       (init_rest env fuel (MPath.canon cs) (dataDirOf cs) (logDirOf cs)
         (dbPathOf cs) (blocksDirOf cs) port name).1,
       (init_rest env fuel (MPath.canon cs) (dataDirOf cs) (logDirOf cs)
         (dbPathOf cs) (blocksDirOf cs) port name).2) := by
  simp only [dataDirOf, logDirOf, dbPathOf, blocksDirOf] at hdbE hfile hdb ⊢
  rcases hr : init_rest env fuel (MPath.canon cs)
      (MPath.sibling (MPath.canon cs) MFS_DIR_SUFFIX)
      (MPath.join (MPath.sibling (MPath.canon cs) MFS_DIR_SUFFIX) LOG_SUBDIR)
      (MPath.join (MPath.sibling (MPath.canon cs) MFS_DIR_SUFFIX)
        FS_DB_FILENAME)
      (MPath.join (MPath.sibling (MPath.canon cs) MFS_DIR_SUFFIX)
        BLOCKS_SUBDIR) port name with ⟨tr, r⟩
  simp [init_mfs, MPath.fileNameCanon, hcd, hca, hport, hdbE, hfile, hdb,
    hname, hr]

/-- C6: on a run that reaches the spawn step, the serving subprocess is
spawned with exactly the argument sequence `supervisor --log-dir <dir>
--child-name <name> --host <host> --port <port> --store-dir <dir>
--fs-db-path <path> --mount-dir <dir>` (the child name is the mount
directory's final path component), no other spawn with any other arguments
occurs, and a spawn failure aborts init surfacing the underlying
process-start I/O error. -/
theorem init_spawn_args_spec (env : Env) (fuel : Nat) (dirOpt : Option MPath)
    (cs : List String) (port : Nat) (name : String) (exe : MPath)
    (hcd : ∀ p, env.createDirAll p = .ok ())
    (hca : env.canonicalize (dirOpt.getD (MPath.raw ".")) = .ok cs)
    (hport : env.findAvailablePort = .ok port)
    (hdbE : env.pathExists (dbPathOf cs) = false)
    (hfile : env.createFile (dbPathOf cs) = .ok ())
    (hdb : env.initDb (dbPathOf cs) = .ok ())
    (hname : cs.getLast? = some name)
    (hexe : env.resolveEnvPath = .ok exe) :
    (initArgsOf cs name port =
      [Arg.s "supervisor", Arg.s "--log-dir", Arg.p (logDirOf cs),
       Arg.s "--child-name", Arg.s name, Arg.s "--host", Arg.s DEFAULT_HOST,
       Arg.s "--port", Arg.s (toString port), Arg.s "--store-dir",
       Arg.p (blocksDirOf cs), Arg.s "--fs-db-path", Arg.p (dbPathOf cs),
       Arg.s "--mount-dir", Arg.p (MPath.canon cs)]) ∧
    Event.spawn exe (initArgsOf cs name port) ∈ (init_mfs env fuel dirOpt).1 ∧
    (∀ e args, Event.spawn e args ∈ (init_mfs env fuel dirOpt).1 →
      e = exe ∧ args = initArgsOf cs name port) ∧
    (∀ io, env.spawn exe (initArgsOf cs name port) = .error io →
      (init_mfs env fuel dirOpt).2 = .err (.IoError io.kind io.msg)) := by
  have hto := init_mfs_to_rest env fuel dirOpt cs port name hcd hca hport hdbE
    hfile hdb hname
  refine ⟨rfl, ?_, ?_, ?_⟩
  · rw [hto]
    exact List.mem_append_right _
      (init_rest_spawn_mem env fuel (MPath.canon cs) (dataDirOf cs)
        (logDirOf cs) (dbPathOf cs) (blocksDirOf cs) port name exe hexe)
  · intro e args hmem
    rw [hto] at hmem
    rcases List.mem_append.mp hmem with h | h
    · simp at h
    · exact init_rest_spawn_unique env fuel (MPath.canon cs) (dataDirOf cs)
        (logDirOf cs) (dbPathOf cs) (blocksDirOf cs) port name exe e args
        hexe h
  · intro io hio
    rw [hto]
    rw [init_rest_spawn_error env fuel (MPath.canon cs) (dataDirOf cs)
      (logDirOf cs) (dbPathOf cs) (blocksDirOf cs) port name exe io hexe hio]

/-- Witness for C6 at the concrete all-success oracle: the spawn event with
the full supervisor argument list occurs during init. -/
theorem init_spawn_args_spec_witness :
    Event.spawn (MPath.raw "/usr/bin/mfsrun") (initArgsOf ["tmp", "x"] "x" 2049)
      ∈ (init_mfs envOk 1 (some (MPath.raw "x"))).1 :=
  (init_spawn_args_spec envOk 1 (some (MPath.raw "x")) ["tmp", "x"] 2049 "x"
    (MPath.raw "/usr/bin/mfsrun") (fun _ => rfl) rfl rfl rfl rfl rfl rfl
    rfl).2.1

/-- C7: on a run that reaches the host mount step, the command invoked is
exactly `mount -t nfs -o nolocks,vers=3,tcp,port=<P>,mountport=<P>,soft
<host>:/ <mount_dir>` with `P` the allocated port (and no other external
command is run during init); exit code 0 lets init proceed (it never fails
`MountFailed`), while any non-zero exit code `c` makes init fail with
`MountFailed c`. -/
theorem init_mount_command_spec (env : Env) (fuel : Nat)
    (dirOpt : Option MPath) (cs : List String) (port pid : Nat)
    (name : String) (exe : MPath) (w : Nat × Nat)
    (hcd : ∀ p, env.createDirAll p = .ok ())
    (hca : env.canonicalize (dirOpt.getD (MPath.raw ".")) = .ok cs)
    (hport : env.findAvailablePort = .ok port)
    (hdbE : env.pathExists (dbPathOf cs) = false)
    (hfile : env.createFile (dbPathOf cs) = .ok ())
    (hdb : env.initDb (dbPathOf cs) = .ok ())
    (hname : cs.getLast? = some name)
    (hexe : env.resolveEnvPath = .ok exe)
    (hspawn : env.spawn exe (initArgsOf cs name port) = .ok pid)
    (hrd : env.readDirHasEntry (MPath.canon cs) = .ok false)
    (hw : wait_for_port env.connects fuel = some w) :
    (mountArgs DEFAULT_HOST port (MPath.canon cs) =
      [Arg.s "-t", Arg.s "nfs", Arg.s "-o",
       Arg.s ("nolocks,vers=3,tcp,port=" ++ toString port ++ ",mountport="
         ++ toString port ++ ",soft"),
       Arg.s (DEFAULT_HOST ++ ":/"), Arg.p (MPath.canon cs)]) ∧
    Event.runCmd "mount" (mountArgs DEFAULT_HOST port (MPath.canon cs)) ∈
      (init_mfs env fuel dirOpt).1 ∧
    (∀ nm2 args, Event.runCmd nm2 args ∈ (init_mfs env fuel dirOpt).1 →
      nm2 = "mount" ∧ args = mountArgs DEFAULT_HOST port (MPath.canon cs)) ∧
    (∀ c, env.commandStatus "mount"
        (mountArgs DEFAULT_HOST port (MPath.canon cs)) = .ok c → c ≠ 0 →
      (init_mfs env fuel dirOpt).2 = .err (.MountFailed c)) ∧
    (env.commandStatus "mount"
        (mountArgs DEFAULT_HOST port (MPath.canon cs)) = .ok 0 →
      ∀ c, (init_mfs env fuel dirOpt).2 ≠ .err (.MountFailed c)) := by
  have hto := init_mfs_to_rest env fuel dirOpt cs port name hcd hca hport hdbE
    hfile hdb hname
  have hmrun := mount_fs_empty_run env fuel (MPath.canon cs) DEFAULT_HOST port
    w (hcd _) hrd hw
  have hsp : env.spawn exe (supervisorArgs (logDirOf cs) name DEFAULT_HOST
      port (blocksDirOf cs) (dbPathOf cs) (MPath.canon cs)) = .ok pid := hspawn
  refine ⟨rfl, ?_, ?_, ?_, ?_⟩
  · rw [hto]
    refine List.mem_append_right _ ?_
    refine init_rest_mount_mem env fuel (MPath.canon cs) (dataDirOf cs)
      (logDirOf cs) (dbPathOf cs) (blocksDirOf cs) port pid name exe _ hexe
      hsp ?_
    rw [hmrun.1]
    simp
  · intro nm2 args hmem
    rw [hto] at hmem
    rcases List.mem_append.mp hmem with h | h
    · simp at h
    · exact init_rest_runCmd_unique env fuel (MPath.canon cs) (dataDirOf cs)
        (logDirOf cs) (dbPathOf cs) (blocksDirOf cs) port name exe nm2 args
        hexe h
  · intro c hst hc
    rw [hto]
    refine init_rest_mount_err env fuel (MPath.canon cs) (dataDirOf cs)
      (logDirOf cs) (dbPathOf cs) (blocksDirOf cs) port pid name exe _ hexe
      hsp ?_
    rw [hmrun.2 c hst]
    simp [hc]
  · intro hst c
    rw [hto]
    have hok : (mount_fs env fuel (MPath.canon cs) DEFAULT_HOST port).2 =
        .ok := by
      rw [hmrun.2 0 hst]; simp
    rcases init_rest_mount_ok env fuel (MPath.canon cs) (dataDirOf cs)
        (logDirOf cs) (dbPathOf cs) (blocksDirOf cs) port pid name exe hexe
        hsp hok with h | ⟨k, m, h⟩ <;> simp [h]

/-- Witness for C7 at the concrete all-success oracle: the exact mount
command event occurs during init. -/
theorem init_mount_command_spec_witness :
    Event.runCmd "mount" (mountArgs DEFAULT_HOST 2049 (MPath.canon ["tmp", "x"]))
      ∈ (init_mfs envOk 1 (some (MPath.raw "x"))).1 :=
  (init_mount_command_spec envOk 1 (some (MPath.raw "x")) ["tmp", "x"] 2049 42
    "x" (MPath.raw "/usr/bin/mfsrun") (0, 0) (fun _ => rfl) rfl rfl rfl rfl
    rfl rfl rfl rfl rfl (by decide)).2.1

theorem mount_fs_nonempty_run (env : Env) (fuel : Nat) (md : MPath)
    (host : String) (port : Nat)
    (hcd : env.createDirAll md = .ok ())
    (hrd : env.readDirHasEntry md = .ok true) :
    mount_fs env fuel md host port =
      ([Event.createDirAll md, Event.readDir md],
        .err (.MountPointNotEmpty md.display)) := by
  simp [mount_fs, hcd, hrd]

theorem mount_fs_trace_take (env : Env) (fuel : Nat) (md : MPath)
    (host : String) (port : Nat)
    (hcd : env.createDirAll md = .ok ()) :
    (mount_fs env fuel md host port).1.take 2 =
      [Event.createDirAll md, Event.readDir md] := by
  rcases h2 : env.readDirHasEntry md with e2 | b
  · simp [mount_fs, hcd, h2]
  · rcases b
    · rcases h3 : wait_for_port env.connects fuel with _ | w
      · simp [mount_fs, hcd, h2, h3]
      · rcases h4 : env.commandStatus "mount" (mountArgs host port md)
          with e4 | c
        · simp [mount_fs, hcd, h2, h3, h4]
        · by_cases h5 : c = 0 <;> simp [mount_fs, hcd, h2, h3, h4, h5]
    · simp [mount_fs, hcd, h2]

theorem mount_fs_wait_mem (env : Env) (fuel : Nat) (md : MPath)
    (host : String) (port : Nat)
    (hcd : env.createDirAll md = .ok ())
    (hrd : env.readDirHasEntry md = .ok false) :
    Event.waitPort host port ∈ (mount_fs env fuel md host port).1 := by
  rcases h3 : wait_for_port env.connects fuel with _ | w
  · simp [mount_fs, hcd, hrd, h3]
  · rw [(mount_fs_empty_run env fuel md host port w hcd hrd h3).1]
    simp

theorem init_rest_mount_sub (env : Env) (fuel : Nat) (md dd ld db bd : MPath)
    (port pid : Nat) (nm : String) (exe : MPath)
    (hexe : env.resolveEnvPath = .ok exe)
    (hsp : env.spawn exe (supervisorArgs ld nm DEFAULT_HOST port bd db md) =
      .ok pid) :
    List.Sublist (mount_fs env fuel md DEFAULT_HOST port).1
      (init_rest env fuel md dd ld db bd port nm).1 := by
  unfold init_rest
  rcases hm : mount_fs env fuel md DEFAULT_HOST port with ⟨tm, rm⟩
  simp only [hexe, hsp, hm]
  rcases rm with _ | e | _
  · by_cases hl : env.pathExists (MPath.join md MFS_LINK_FILENAME)
    · rw [if_pos hl]
      exact .cons _ (.cons _ (List.Sublist.refl _))
    · rw [if_neg hl]
      rcases hs : env.symlink dd (MPath.join md MFS_LINK_FILENAME)
        with e | u <;>
      · simp only [hs]
        exact .cons _ (.cons _ (List.sublist_append_left tm _))
  · exact .cons _ (.cons _ (List.Sublist.refl _))
  · exact .cons _ (.cons _ (List.Sublist.refl _))

/-- C1: on a run that reaches the mount step, the mount directory is created
(`create_dir_all`) and then checked (`read_dir`), in that order; if the read
yields at least one entry, init fails with `MountPointNotEmpty` carrying the
mount directory path and no host `mount` command is ever invoked; if the
directory is empty, execution proceeds to the port wait and — once the wait
returns — the host mount command is invoked. -/
theorem init_mount_point_empty_check (env : Env) (fuel : Nat)
    (dirOpt : Option MPath) (cs : List String) (port pid : Nat)
    (name : String) (exe : MPath)
    (hcd : ∀ p, env.createDirAll p = .ok ())
    (hca : env.canonicalize (dirOpt.getD (MPath.raw ".")) = .ok cs)
    (hport : env.findAvailablePort = .ok port)
    (hdbE : env.pathExists (dbPathOf cs) = false)
    (hfile : env.createFile (dbPathOf cs) = .ok ())
    (hdb : env.initDb (dbPathOf cs) = .ok ())
    (hname : cs.getLast? = some name)
    (hexe : env.resolveEnvPath = .ok exe)
    (hspawn : env.spawn exe (initArgsOf cs name port) = .ok pid) :
    List.Sublist [Event.createDirAll (MPath.canon cs),
      Event.readDir (MPath.canon cs)] (init_mfs env fuel dirOpt).1 ∧
    (env.readDirHasEntry (MPath.canon cs) = .ok true →
      (init_mfs env fuel dirOpt).2 =
        .err (.MountPointNotEmpty (MPath.canon cs).display) ∧
      ∀ args, Event.runCmd "mount" args ∉ (init_mfs env fuel dirOpt).1) ∧
    (env.readDirHasEntry (MPath.canon cs) = .ok false →
      Event.waitPort DEFAULT_HOST port ∈ (init_mfs env fuel dirOpt).1 ∧
      (∀ w, wait_for_port env.connects fuel = some w →
        Event.runCmd "mount" (mountArgs DEFAULT_HOST port (MPath.canon cs)) ∈
          (init_mfs env fuel dirOpt).1)) := by
  have hto := init_mfs_to_rest env fuel dirOpt cs port name hcd hca hport hdbE
    hfile hdb hname
  have hsp : env.spawn exe (supervisorArgs (logDirOf cs) name DEFAULT_HOST
      port (blocksDirOf cs) (dbPathOf cs) (MPath.canon cs)) = .ok pid := hspawn
  refine ⟨?_, ?_, ?_⟩
  · rw [hto]
    refine List.Sublist.trans ?_ (List.sublist_append_right _ _)
    refine List.Sublist.trans ?_ (init_rest_mount_sub env fuel (MPath.canon cs)
      (dataDirOf cs) (logDirOf cs) (dbPathOf cs) (blocksDirOf cs) port pid
      name exe hexe hsp)
    rw [← mount_fs_trace_take env fuel (MPath.canon cs) DEFAULT_HOST port
      (hcd _)]
    exact List.take_sublist _ _
  · intro hrd
    have hmr := mount_fs_nonempty_run env fuel (MPath.canon cs) DEFAULT_HOST
      port (hcd _) hrd
    constructor
    · rw [hto]
      exact init_rest_mount_err env fuel (MPath.canon cs) (dataDirOf cs)
        (logDirOf cs) (dbPathOf cs) (blocksDirOf cs) port pid name exe _ hexe
        hsp (by rw [hmr])
    · intro args hmem
      rw [hto] at hmem
      rcases List.mem_append.mp hmem with h | h
      · simp at h
      · rcases init_rest_trace_cases env fuel (MPath.canon cs) (dataDirOf cs)
          (logDirOf cs) (dbPathOf cs) (blocksDirOf cs) port name exe _ hexe h
          with h2 | h2 | h2 | h2
        · exact absurd h2 (by simp)
        · exact absurd h2 (by simp)
        · rw [hmr] at h2; simp at h2
        · exact absurd h2 (by simp)
  · intro hrd
    constructor
    · rw [hto]
      exact List.mem_append_right _
        (init_rest_mount_mem env fuel (MPath.canon cs) (dataDirOf cs)
          (logDirOf cs) (dbPathOf cs) (blocksDirOf cs) port pid name exe _
          hexe hsp
          (mount_fs_wait_mem env fuel (MPath.canon cs) DEFAULT_HOST port
            (hcd _) hrd))
    · intro w hw
      rw [hto]
      refine List.mem_append_right _
        (init_rest_mount_mem env fuel (MPath.canon cs) (dataDirOf cs)
          (logDirOf cs) (dbPathOf cs) (blocksDirOf cs) port pid name exe _
          hexe hsp ?_)
      rw [(mount_fs_empty_run env fuel (MPath.canon cs) DEFAULT_HOST port w
        (hcd _) hrd hw).1]
      simp

/-- Witness for C1 at a concrete oracle whose mount directory read yields an
entry: init fails `MountPointNotEmpty` with the mount directory path. -/
theorem init_mount_point_empty_check_witness :
    (init_mfs envNonEmpty 1 (some (MPath.raw "x"))).2 =
      .err (.MountPointNotEmpty (MPath.canon ["tmp", "x"]).display) :=
  ((init_mount_point_empty_check envNonEmpty 1 (some (MPath.raw "x"))
    ["tmp", "x"] 2049 42 "x" (MPath.raw "/usr/bin/mfsrun") (fun _ => rfl) rfl
    rfl rfl rfl rfl rfl rfl rfl).2.1 rfl).1

/-- C5: during detach's unmount step, if the mount point does not exist,
detach fails with a not-found I/O error and no external command is invoked;
otherwise `umount` is invoked with `-f` exactly when force is requested, a
non-zero exit status `c` makes detach fail with `UnmountFailed c`, and exit
status zero lets detach succeed. -/
theorem detach_unmount_step_spec (env : Env) (mdOpt : Option MPath)
    (force : Bool) (mfs_root dd : MPath)
    (hroot : env.findMfsRoot (mdOpt.getD (MPath.raw ".")) = .ok mfs_root)
    (hlink : env.readLink (MPath.join mfs_root MFS_LINK_FILENAME) = .ok dd) :
    (umountArgs force mfs_root =
      if force then [Arg.s "-f", Arg.p mfs_root] else [Arg.p mfs_root]) ∧
    (env.pathExists mfs_root = false →
      (detach_mfs env mdOpt force).2 =
        .error (.IoError .notFound
          ("Mount point does not exist: " ++ mfs_root.display)) ∧
      ∀ nm args, Event.runCmd nm args ∉ (detach_mfs env mdOpt force).1) ∧
    (env.pathExists mfs_root = true →
      Event.runCmd "umount" (umountArgs force mfs_root) ∈
        (detach_mfs env mdOpt force).1 ∧
      (∀ c, env.commandStatus "umount" (umountArgs force mfs_root) = .ok c →
        (c ≠ 0 → (detach_mfs env mdOpt force).2 = .error (.UnmountFailed c)) ∧
        (c = 0 → (detach_mfs env mdOpt force).2 = .ok ()))) := by
  refine ⟨rfl, ?_, ?_⟩
  · intro hex
    constructor
    · simp [detach_mfs, get_fs_db_path, unmount_fs, hroot, hlink, hex]
    · intro nm args
      simp [detach_mfs, get_fs_db_path, unmount_fs, hroot, hlink, hex]
  · intro hex
    constructor
    · rcases h4 : env.commandStatus "umount" (umountArgs force mfs_root)
        with e4 | c
      · simp [detach_mfs, get_fs_db_path, unmount_fs, hroot, hlink, hex, h4]
      · by_cases h5 : c = 0
        · subst h5
          rcases hgp : get_supervisor_pid env (MPath.join dd FS_DB_FILENAME)
            mfs_root with ⟨t3, rpid⟩
          rcases rpid with e | po
          · simp [detach_mfs, get_fs_db_path, unmount_fs, hroot, hlink, hex,
              h4, hgp]
          · rcases po with _ | pd <;>
              simp [detach_mfs, get_fs_db_path, unmount_fs, hroot, hlink,
                hex, h4, hgp]
        · simp [detach_mfs, get_fs_db_path, unmount_fs, hroot, hlink, hex,
            h4, h5]
    · intro c h4
      constructor
      · intro hc
        simp [detach_mfs, get_fs_db_path, unmount_fs, hroot, hlink, hex, h4,
          hc]
      · intro hc
        subst hc
        rcases hgp : get_supervisor_pid env (MPath.join dd FS_DB_FILENAME)
          mfs_root with ⟨t3, rpid⟩
        rcases rpid with e | po
        · simp [detach_mfs, get_fs_db_path, unmount_fs, hroot, hlink, hex,
            h4, hgp]
        · rcases po with _ | pd <;>
            simp [detach_mfs, get_fs_db_path, unmount_fs, hroot, hlink, hex,
              h4, hgp]

/-- Witness for C5 at a concrete oracle with an existing mount point: the
`umount` command (without `-f`, force not requested) is invoked. -/
theorem detach_unmount_step_spec_witness :
    Event.runCmd "umount" (umountArgs false mntC) ∈
      (detach_mfs envDetach (some mntC) false).1 :=
  ((detach_unmount_step_spec envDetach (some mntC) false mntC dataDirC rfl
    rfl).2.2 rfl).1

/-- C2: whenever the unmount step of detach succeeds, detach returns `Ok(())`
regardless of the supervisor-PID lookup outcome: a failed registry query is
only logged (the `errorDbQuery` event), a missing PID only logs a warning
(the `warnNoPid` event), and no PID-lookup or signal-check failure can make
detach return an error. -/
theorem detach_best_effort_spec (env : Env) (mdOpt : Option MPath)
    (force : Bool) (mfs_root dd : MPath)
    (hroot : env.findMfsRoot (mdOpt.getD (MPath.raw ".")) = .ok mfs_root)
    (hlink : env.readLink (MPath.join mfs_root MFS_LINK_FILENAME) = .ok dd)
    (hex : env.pathExists mfs_root = true)
    (hcmd : env.commandStatus "umount" (umountArgs force mfs_root) = .ok 0) :
    (detach_mfs env mdOpt force).2 = .ok () ∧
    (∀ e, (get_supervisor_pid env (MPath.join dd FS_DB_FILENAME)
        mfs_root).2 = .error e →
      Event.errorDbQuery ∈ (detach_mfs env mdOpt force).1) ∧
    ((get_supervisor_pid env (MPath.join dd FS_DB_FILENAME) mfs_root).2 =
        .ok none →
      Event.warnNoPid mfs_root ∈ (detach_mfs env mdOpt force).1) := by
  refine ⟨?_, ?_, ?_⟩
  · rcases hgp : get_supervisor_pid env (MPath.join dd FS_DB_FILENAME)
      mfs_root with ⟨t3, rpid⟩
    rcases rpid with e | po
    · simp [detach_mfs, get_fs_db_path, unmount_fs, hroot, hlink, hex, hcmd,
        hgp]
    · rcases po with _ | pd <;>
        simp [detach_mfs, get_fs_db_path, unmount_fs, hroot, hlink, hex,
          hcmd, hgp]
  · intro e he
    rcases hgp : get_supervisor_pid env (MPath.join dd FS_DB_FILENAME)
      mfs_root with ⟨t3, rpid⟩
    rw [hgp] at he
    simp only at he
    subst he
    simp [detach_mfs, get_fs_db_path, unmount_fs, hroot, hlink, hex, hcmd,
      hgp]
  · intro he
    rcases hgp : get_supervisor_pid env (MPath.join dd FS_DB_FILENAME)
      mfs_root with ⟨t3, rpid⟩
    rw [hgp] at he
    simp only at he
    subst he
    simp [detach_mfs, get_fs_db_path, unmount_fs, hroot, hlink, hex, hcmd,
      hgp]

/-- Witness for C2 at a concrete oracle whose unmount succeeds: detach
returns success. -/
theorem detach_best_effort_spec_witness :
    (detach_mfs envDetach (some mntC) false).2 = .ok () :=
  (detach_best_effort_spec envDetach (some mntC) false mntC dataDirC rfl rfl
    rfl rfl).1

/-- C10: the supervisor-PID lookup returns `Ok(None)` — with the identical
trace — both when the registry has no row for the mount directory and when a
row exists whose `supervisor_pid` column is NULL; in either case detach takes
the same no-PID-recorded warning path (`warnNoPid`) and still succeeds. -/
theorem pid_lookup_none_spec (env : Env) (db mnt : MPath)
    (record : Option (Option Int))
    (hpool : env.getDbPool db = .ok ())
    (hq : env.queryPid db mnt.display = .ok record)
    (hrec : record = none ∨ record = some none) :
    get_supervisor_pid env db mnt =
      ([.getDbPool db, .queryPid db mnt.display], .ok none) ∧
    (∀ mdOpt force dd,
      db = MPath.join dd FS_DB_FILENAME →
      env.findMfsRoot (Option.getD mdOpt (MPath.raw ".")) = .ok mnt →
      env.readLink (MPath.join mnt MFS_LINK_FILENAME) = .ok dd →
      env.pathExists mnt = true →
      env.commandStatus "umount" (umountArgs force mnt) = .ok 0 →
      Event.warnNoPid mnt ∈ (detach_mfs env mdOpt force).1 ∧
      (detach_mfs env mdOpt force).2 = .ok ()) := by
  have hg : get_supervisor_pid env db mnt =
      ([.getDbPool db, .queryPid db mnt.display], .ok none) := by
    rcases hrec with h | h <;> subst h <;>
      simp [get_supervisor_pid, hpool, hq]
  refine ⟨hg, ?_⟩
  intro mdOpt force dd hdb hroot hlink hex hcmd
  subst hdb
  constructor
  · simp [detach_mfs, get_fs_db_path, unmount_fs, hroot, hlink, hex, hcmd,
      hg]
  · simp [detach_mfs, get_fs_db_path, unmount_fs, hroot, hlink, hex, hcmd,
      hg]

/-- Witness for C10 at two concrete oracles — one with no registry row, one
with a row whose `supervisor_pid` column is NULL: the lookup returns
`Ok(None)` with the identical trace in both. -/
theorem pid_lookup_none_spec_witness :
    get_supervisor_pid envNoRow dbPathC mntC =
      ([.getDbPool dbPathC, .queryPid dbPathC (MPath.display mntC)],
        .ok none) ∧
    get_supervisor_pid envNullPid dbPathC mntC =
      ([.getDbPool dbPathC, .queryPid dbPathC (MPath.display mntC)],
        .ok none) :=
  ⟨(pid_lookup_none_spec envNoRow dbPathC mntC none rfl rfl (Or.inl rfl)).1,
   (pid_lookup_none_spec envNullPid dbPathC mntC (some none) rfl rfl
     (Or.inr rfl)).1⟩
